import Mathlib

/-!
Shallow embedding of `postgres_composite_types/__init__.py`
(django-postgres-composite-types).

The module declares Postgres composite types for Django.  The parts embedded
here, each named after the source symbol it models:

* `Value` — the Python values flowing through the value-coercion adapter:
  `None`, strings, integers, driver tuples, dicts, and instances of a
  declared `CompositeType` (an instance is its attribute dictionary).
* `CompositeType_init` — `CompositeType.__init__` (lines 277-290).
* `to_tuple_fields` / `CompositeType_to_tuple` — `CompositeType.__to_tuple__`
  (lines 298-302).
* `BaseField_to_python`, `BaseField_from_db_value`, `BaseField_get_prep_value`
  — the coercion methods of `BaseField` (lines 67-110).
* `collectFields`, `findMetaDbType`, `CompositeTypeMeta_new` —
  `CompositeTypeMeta.__new__` (lines 178-218).
* `database_connected`, `connection_event`, `run_events` — the
  first-connection registration hook (lines 220-249) together with the Django
  signal registry it connects to and disconnects from.
* `create_type_sql`, `database_forwards`, `database_backwards` — the effect
  traces of `BaseOperation.database_forwards` / `database_backwards`
  (lines 141-162).

Machine-level caveats: Python object attribute namespaces and dicts are
modelled as association lists with latest-binding-first lookup; exceptions are
modelled with `Except` or explicit result fields.
-/

namespace PgCompositeTypes

/-- Python values handled by the coercion adapter.  `inst` is an instance of
the declared composite type, represented by its attribute dictionary
(`__dict__`), most recent assignment first. -/
inductive Value : Type where
  | none : Value
  | str : String → Value
  | int : Int → Value
  | tuple : List Value → Value
  | dict : List (String × Value) → Value
  | inst : List (String × Value) → Value

/-- An object attribute namespace: the representation used for `Value.inst`. -/
abbrev PyAttrs := List (String × Value)

/-- `getattr(obj, n)`: first binding for `n` wins; `Option.none` models the
`AttributeError` raised when the attribute was never assigned. -/
def getattr? : PyAttrs → String → Option Value
  | [], _ => Option.none
  | p :: rest, n => if p.1 = n then some p.2 else getattr? rest n

/-- `setattr(obj, n, v)`: a new binding shadowing any previous one. -/
def setattr (a : PyAttrs) (n : String) (v : Value) : PyAttrs :=
  (n, v) :: a

/-- A sequence of `setattr` calls performed in list order (a Python
assignment loop). -/
def applyAssigns (a : PyAttrs) (l : List (String × Value)) : PyAttrs :=
  l.foldl (fun acc p => setattr acc p.1 p.2) a

/-- `d.get(n)` on a Python dict: the value bound to `n`, or `None` when the
key is absent. -/
def dict_get : List (String × Value) → String → Value
  | [], _ => Value.none
  | p :: rest, n => if p.1 = n then p.2 else dict_get rest n

/-- One declared sub-field of a composite type: an ordinary Django model
field.  `dbType` is what `field.db_type(connection)` returns and `prepValue`
is the field own `get_prep_value`. -/
structure FieldSpec : Type where
  dbType : String
  prepValue : Value → Value

/-- The `Meta` object the metaclass builds: the mandatory database type name
plus the ordered `(name, field)` list harvested from the class body. -/
structure Meta : Type where
  db_type : String
  fields : List (String × FieldSpec)

/-- The attribute namespace produced by a successful `CompositeType.__init__`:
every declared field is first set to `None`, then positional `args` are
assigned by `zip` with the declared fields, then keyword `kwargs` are
assigned. -/
def init_attrs (meta : Meta) (args : List Value)
    (kwargs : List (String × Value)) : PyAttrs :=
  applyAssigns
    (applyAssigns
      (applyAssigns [] (meta.fields.map (fun nf => (nf.1, Value.none))))
      ((meta.fields.zip args).map (fun p => (p.1.1, p.2))))
    kwargs

/-- `CompositeType.__init__` (lines 277-290): raises `RuntimeError` when both
positional and keyword arguments are given, otherwise builds the attribute
namespace. -/
def CompositeType_init (meta : Meta) (args : List Value)
    (kwargs : List (String × Value)) : Except String PyAttrs :=
  if !args.isEmpty && !kwargs.isEmpty then
    Except.error "Specify either args or kwargs but not both."
  else
    Except.ok (init_attrs meta args kwargs)

/-- The generator inside `CompositeType.__to_tuple__`:
`field.get_prep_value(getattr(self, name))` for each declared `(name, field)`
in order; `Option.none` models an `AttributeError` from `getattr`. -/
def to_tuple_fields (a : PyAttrs) : List (String × FieldSpec) → Option (List Value)
  | [] => some []
  | nf :: rest =>
    (getattr? a nf.1).bind
      (fun v => (to_tuple_fields a rest).map (fun t => nf.2.prepValue v :: t))

/-- `CompositeType.__to_tuple__` (lines 298-302). -/
def CompositeType_to_tuple (meta : Meta) (a : PyAttrs) : Option (List Value) :=
  to_tuple_fields a meta.fields

/-- `BaseField.to_python` (lines 67-77): a dict is turned into an instance by
`self.Meta.model(**value)`; anything else passes through unchanged. -/
def BaseField_to_python (meta : Meta) (v : Value) : Except String Value :=
  match v with
  | Value.dict entries => (CompositeType_init meta [] entries).map Value.inst
  | v => Except.ok v

/-- `BaseField.from_db_value` (lines 79-90): a driver tuple is turned into an
instance by `self.Meta.model(*value)`; anything else passes through. -/
def BaseField_from_db_value (meta : Meta) (v : Value) : Except String Value :=
  match v with
  | Value.tuple vs => (CompositeType_init meta vs []).map Value.inst
  | v => Except.ok v

/-- `BaseField.get_prep_value` (lines 92-110): a dict is flattened by
preparing `value.get(name)` for each declared field; an instance is flattened
by `__to_tuple__`; anything else passes through. -/
def BaseField_get_prep_value (meta : Meta) (v : Value) : Option Value :=
  match v with
  | Value.dict entries =>
    some (Value.tuple
      (meta.fields.map (fun nf => nf.2.prepValue (dict_get entries nf.1))))
  | Value.inst a => (to_tuple_fields a meta.fields).map Value.tuple
  | v => some v

/-- The round trip named by the spec: instance, to-storage tuple,
from-storage instance.  `Option.none` when either step does not produce an
instance. -/
def roundtrip (meta : Meta) (a : PyAttrs) : Option PyAttrs :=
  match CompositeType_to_tuple meta a with
  | some t =>
    match BaseField_from_db_value meta (Value.tuple t) with
    | Except.ok (Value.inst a2) => some a2
    | _ => Option.none
  | Option.none => Option.none

/-! Metaclass: `CompositeTypeMeta.__new__` (lines 178-218). -/

/-- The kinds of values a class body can bind: a Django related field, an
ordinary Django model field, the nested `Meta` block (whose `db_type`
attribute may be absent), or anything else. -/
inductive AttrValue : Type where
  | relatedField : FieldSpec → AttrValue
  | field : FieldSpec → AttrValue
  | metaBlock : Option String → AttrValue
  | other : AttrValue

/-- The field-harvesting loop of `CompositeTypeMeta.__new__` (lines 184-192):
walks the class body in declaration order, raises `TypeError` at a related
field, collects ordinary fields. -/
def collectFields : List (String × AttrValue) → Except String (List (String × FieldSpec))
  | [] => Except.ok []
  | p :: rest =>
    match p.2 with
    | AttrValue.relatedField _ =>
      Except.error "Composite types cannot contain related fields"
    | AttrValue.field f => (collectFields rest).map (fun fs => (p.1, f) :: fs)
    | _ => collectFields rest

/-- The class body after the loop popped every ordinary field. -/
def popFields (attrs : List (String × AttrValue)) : List (String × AttrValue) :=
  attrs.filter (fun p =>
    match p.2 with
    | AttrValue.field _ => false
    | _ => true)

/-- `attrs.pop('Meta', object()).db_type`: the declared database type name,
when a `Meta` block is present and carries one. -/
def findMetaDbType (attrs : List (String × AttrValue)) : Option String :=
  match attrs.find? (fun p => p.1 == "Meta") with
  | some p =>
    match p.2 with
    | AttrValue.metaBlock dbt => dbt
    | _ => Option.none
  | Option.none => Option.none

/-- `CompositeTypeMeta.__new__` (lines 178-218): the base class passes
through (`Option.none`); a subclass harvests its fields (raising on related
fields), then requires `Meta.db_type`, then builds the `Meta` object. -/
def CompositeTypeMeta_new (name : String) (attrs : List (String × AttrValue)) :
    Except String (Option Meta) :=
  if name = "CompositeType" then Except.ok Option.none
  else
    match collectFields attrs with
    | Except.error e => Except.error e
    | Except.ok fields =>
      match findMetaDbType (popFields attrs) with
      | Option.none => Except.error "Meta.db_type is required."
      | some dbt => Except.ok (some { db_type := dbt, fields := fields })

/-! First-connection registration hook (lines 220-249) and the Django signal
registry it uses, keyed by `dispatch_uid = Meta.db_type`. -/

/-- `connection_created.connect(..., dispatch_uid=uid)`: idempotent by uid. -/
def signal_connect (registry : List String) (uid : String) : List String :=
  if uid ∈ registry then registry else registry ++ [uid]

/-- `connection_created.disconnect(..., dispatch_uid=uid)`. -/
def signal_disconnect (registry : List String) (uid : String) : List String :=
  registry.filter (fun u => !(u == uid))

/-- Outcome of the driver call `register_composite(db_type, cur, globally=True)`
inside `register_composite` (lines 251-262): success, a psycopg2
`ProgrammingError` (type not created yet), or any other exception. -/
inductive RegOutcome : Type where
  | ok : RegOutcome
  | progError : RegOutcome
  | otherError : RegOutcome
deriving DecidableEq

/-- The literal warning message logged at lines 242-244. -/
def registration_warning : String :=
  "Failed to register composite %s. This might be because the migration to register it has not run yet"

/-- What one call of the hook did: whether an exception escaped to the
caller, the warnings logged, and the signal registry afterwards. -/
structure HookResult : Type where
  raised : Bool
  warnings : List String
  registry : List String

/-- `CompositeTypeMeta.database_connected` (lines 229-249): on a Postgres
connection try to register, catching only `ProgrammingError` (logging the
warning); then disconnect the signal.  A non-`ProgrammingError` exception
propagates before the disconnect line runs. -/
def database_connected (meta : Meta) (isPostgres : Bool) (reg : RegOutcome)
    (registry : List String) : HookResult :=
  if isPostgres then
    match reg with
    | RegOutcome.ok =>
      { raised := false, warnings := [],
        registry := signal_disconnect registry meta.db_type }
    | RegOutcome.progError =>
      { raised := false, warnings := [registration_warning],
        registry := signal_disconnect registry meta.db_type }
    | RegOutcome.otherError =>
      { raised := true, warnings := [], registry := registry }
  else
    { raised := false, warnings := [],
      registry := signal_disconnect registry meta.db_type }

/-- Per-process hook state: the signal registry and how many times driver
registration has been attempted for this declared type. -/
structure ProcState : Type where
  registry : List String
  attempts : Nat

/-- One `connection_created` dispatch: the hook runs only while its uid is in
the registry; a registration attempt happens exactly when the connection is
the Postgres backend. -/
def connection_event (meta : Meta) (e : Bool × RegOutcome) (st : ProcState) :
    ProcState :=
  if meta.db_type ∈ st.registry then
    { registry := (database_connected meta e.1 e.2 st.registry).registry,
      attempts := st.attempts + (if e.1 then 1 else 0) }
  else st

/-- The state right after `CompositeTypeMeta.__init__` (lines 220-227)
connected the hook. -/
def initial_state (meta : Meta) : ProcState :=
  { registry := signal_connect [] meta.db_type, attempts := 0 }

/-- A whole process life: a sequence of connection events. -/
def run_events (meta : Meta) (events : List (Bool × RegOutcome))
    (st : ProcState) : ProcState :=
  events.foldl (fun s e => connection_event meta e s) st

/-! Migration operations (lines 129-162), modelled by their effect traces. -/

/-- Observable effects of a migration operation: `schema_editor.execute`,
`register_composite`, and the `composite_type_created` signal send. -/
inductive Effect : Type where
  | execSQL : String → Effect
  | registerComposite : String → Effect
  | sendSignal : String → Effect

/-- The statement built at lines 144-153:
`' '.join(("CREATE TYPE", db_type, "AS (%s)" % ', '.join(fields)))` with
`fields = ['%s %s' % (name, field.db_type(connection)), ...]`. -/
def create_type_sql (meta : Meta) : String :=
  "CREATE TYPE" ++ " " ++ meta.db_type ++ " " ++
    ("AS (" ++
      String.intercalate ", "
        (meta.fields.map (fun nf => nf.1 ++ " " ++ nf.2.dbType)) ++ ")")

/-- `BaseOperation.database_forwards` (lines 141-158). -/
def database_forwards (meta : Meta) : List Effect :=
  [Effect.execSQL (create_type_sql meta),
   Effect.registerComposite meta.db_type,
   Effect.sendSignal meta.db_type]

/-- `BaseOperation.database_backwards` (lines 160-162):
`schema_editor.execute('DROP TYPE %s' % db_type)` and nothing else. -/
def database_backwards (meta : Meta) : List Effect :=
  [Effect.execSQL ("DROP TYPE " ++ meta.db_type)]

/-! Concrete declared types used by the example claims. -/

/-- A `models.TextField()` sub-field: its `get_prep_value` leaves string and
`None` values unchanged. -/
def text_field : FieldSpec :=
  { dbType := "text", prepValue := fun v => v }

/-- Python `int(s)` on a string of decimal digits (the only string inputs
used here; Django raises `ValueError` on anything else). -/
def str_to_int (s : String) : Int :=
  s.data.foldl (fun acc c => acc * 10 + ((c.toNat : Int) - 48)) 0

/-- A `models.IntegerField()` sub-field: Django coerces with `int(value)`,
so a numeric string becomes an `int`. -/
def int_prep : Value → Value
  | Value.none => Value.none
  | Value.str s => Value.int (str_to_int s)
  | v => v

/-- An integer sub-field. -/
def int_field : FieldSpec :=
  { dbType := "integer", prepValue := int_prep }

/-- The `Address` example of the spec: `street text, city text`,
`db_type = 'address'`. -/
def address_meta : Meta :=
  { db_type := "address", fields := [("street", text_field), ("city", text_field)] }

/-- A one-field declared type holding an integer column, used to exercise a
sub-field whose `get_prep_value` is not the identity. -/
def point_meta : Meta :=
  { db_type := "point_int", fields := [("x", int_field)] }

/-! Helper lemmas about attribute namespaces and assignment loops. -/

theorem applyAssigns_nil (a : PyAttrs) : applyAssigns a [] = a := rfl

theorem applyAssigns_cons (a : PyAttrs) (p : String × Value)
    (l : List (String × Value)) :
    applyAssigns a (p :: l) = applyAssigns (setattr a p.1 p.2) l := rfl

theorem getattr_setattr (a : PyAttrs) (k n : String) (v : Value) :
    getattr? (setattr a k v) n = if k = n then some v else getattr? a n := rfl

theorem getattr_applyAssigns_not_mem (l : List (String × Value)) (a : PyAttrs)
    (n : String) (h : n ∉ l.map Prod.fst) :
    getattr? (applyAssigns a l) n = getattr? a n := by
  induction l generalizing a with
  | nil => rfl
  | cons p rest ih =>
    simp only [List.map_cons, List.mem_cons] at h
    push_neg at h
    rw [applyAssigns_cons, ih _ h.2, getattr_setattr, if_neg (fun hc => h.1 hc.symm)]

theorem getattr_applyAssigns_mem (l : List (String × Value)) (a : PyAttrs)
    (n : String) (v : Value) (hnd : (l.map Prod.fst).Nodup) (hmem : (n, v) ∈ l) :
    getattr? (applyAssigns a l) n = some v := by
  induction l generalizing a with
  | nil => cases hmem
  | cons p rest ih =>
    rw [List.map_cons, List.nodup_cons] at hnd
    rcases List.mem_cons.mp hmem with heq | hmem2
    · have hp : p = (n, v) := heq.symm
      subst hp
      rw [applyAssigns_cons, getattr_applyAssigns_not_mem rest _ n hnd.1,
        getattr_setattr, if_pos rfl]
    · exact ih _ hnd.2 hmem2

theorem getattr_applyAssigns_isSome (l : List (String × Value)) (a : PyAttrs)
    (n : String) (h : (getattr? a n).isSome) :
    (getattr? (applyAssigns a l) n).isSome := by
  induction l generalizing a with
  | nil => exact h
  | cons p rest ih =>
    rw [applyAssigns_cons]
    apply ih
    rw [getattr_setattr]
    by_cases hc : p.1 = n
    · rw [if_pos hc]; rfl
    · rw [if_neg hc]; exact h

theorem getattr_isSome_iff_key_mem (l : List (String × Value)) (n : String) :
    (getattr? l n).isSome ↔ n ∈ l.map Prod.fst := by
  induction l with
  | nil => simp [getattr?]
  | cons p rest ih =>
    by_cases hc : p.1 = n
    · simp [getattr?, hc]
    · simp only [getattr?, if_neg hc, List.map_cons, List.mem_cons, ih]
      constructor
      · exact Or.inr
      · rintro (h | h)
        · exact absurd h.symm hc
        · exact h

theorem getattr_mem (l : List (String × Value)) (n : String) (v : Value)
    (h : getattr? l n = some v) : (n, v) ∈ l := by
  induction l with
  | nil => cases h
  | cons p rest ih =>
    by_cases hc : p.1 = n
    · rw [getattr?, if_pos hc] at h
      injection h with h2
      subst hc
      subst h2
      simp
    · rw [getattr?, if_neg hc] at h
      exact List.mem_cons_of_mem _ (ih h)

theorem dict_get_eq_getattr (entries : List (String × Value)) (n : String) :
    dict_get entries n = (getattr? entries n).getD Value.none := by
  induction entries with
  | nil => rfl
  | cons p rest ih =>
    by_cases hc : p.1 = n
    · simp [dict_get, getattr?, hc]
    · simp [dict_get, getattr?, hc, ih]

theorem blank_lookup (fields : List (String × FieldSpec)) (a0 : PyAttrs)
    (n : String) (h : n ∈ fields.map Prod.fst) :
    getattr? (applyAssigns a0 (fields.map (fun nf => (nf.1, Value.none)))) n =
      some Value.none := by
  induction fields generalizing a0 with
  | nil => simp at h
  | cons nf rest ih =>
    rw [List.map_cons, applyAssigns_cons]
    by_cases hn : n ∈ rest.map Prod.fst
    · exact ih _ hn
    · have hne : n = nf.1 := by
        rcases List.mem_cons.mp h with h1 | h2
        · exact h1
        · exact absurd h2 hn
      have hk : n ∉ (rest.map (fun nf => (nf.1, Value.none))).map Prod.fst := by
        simpa [List.map_map, Function.comp] using hn
      rw [getattr_applyAssigns_not_mem _ _ _ hk, getattr_setattr,
        if_pos hne.symm]

theorem zip_assign_keys (fields : List (String × FieldSpec)) (args : List Value) :
    ((fields.zip args).map (fun p => (p.1.1, p.2))).map Prod.fst =
      (fields.map Prod.fst).take args.length := by
  induction fields generalizing args with
  | nil => simp
  | cons nf rest ih =>
    cases args with
    | nil => simp
    | cons a as => simp [List.zip_cons_cons, ih, List.take_succ_cons]

theorem nodup_get_not_mem_take {α : Type} (l : List α) (hnd : l.Nodup)
    (i : Nat) (h : i < l.length) (k : Nat) (hk : k ≤ i) :
    l.get ⟨i, h⟩ ∉ l.take k := by
  induction l generalizing i k with
  | nil => exact absurd h (by simp)
  | cons x rest ih =>
    rcases List.nodup_cons.mp hnd with ⟨hx, hrest⟩
    cases k with
    | zero => simp
    | succ k =>
      cases i with
      | zero => omega
      | succ i =>
        simp only [List.take_succ_cons, List.get_cons_succ]
        intro hmem
        rcases List.mem_cons.mp hmem with heq | hmem2
        · exact hx (heq ▸ List.get_mem rest _ _)
        · exact ih hrest i (by simpa using h) k (by omega) hmem2

theorem pos_lookup (fields : List (String × FieldSpec)) (args : List Value)
    (hnd : (fields.map Prod.fst).Nodup) (i : Nat) (hf : i < fields.length)
    (a0 : PyAttrs) :
    getattr? (applyAssigns a0 ((fields.zip args).map (fun p => (p.1.1, p.2))))
        (fields.get ⟨i, hf⟩).1 =
      if h2 : i < args.length then some (args.get ⟨i, h2⟩)
      else getattr? a0 (fields.get ⟨i, hf⟩).1 := by
  by_cases h2 : i < args.length
  · rw [dif_pos h2]
    apply getattr_applyAssigns_mem
    · rw [zip_assign_keys]
      exact List.Nodup.sublist (List.take_sublist _ _) hnd
    · have hz : i < ((fields.zip args).map (fun p => (p.1.1, p.2))).length := by
        simp [List.length_zip]
        omega
      have hget : ((fields.zip args).map (fun p => (p.1.1, p.2))).get ⟨i, hz⟩ =
          ((fields.get ⟨i, hf⟩).1, args.get ⟨i, h2⟩) := by
        simp [List.get_eq_getElem, List.getElem_map, List.getElem_zip]
      rw [← hget]
      exact List.get_mem _ _ _
  · rw [dif_neg h2]
    apply getattr_applyAssigns_not_mem
    rw [zip_assign_keys]
    have hname : (fields.get ⟨i, hf⟩).1 =
        (fields.map Prod.fst).get ⟨i, by simpa using hf⟩ := by
      simp [List.get_eq_getElem, List.getElem_map]
    rw [hname]
    exact nodup_get_not_mem_take _ hnd i _ args.length (by omega)

/-! Lemmas about the tuple generator of `__to_tuple__`. -/

theorem to_tuple_fields_spec (a : PyAttrs) (fields : List (String × FieldSpec))
    (t : List Value) (h : to_tuple_fields a fields = some t) :
    t.length = fields.length ∧
      ∀ i (hf : i < fields.length) (ht : i < t.length),
        ∃ v, getattr? a (fields.get ⟨i, hf⟩).1 = some v ∧
          t.get ⟨i, ht⟩ = (fields.get ⟨i, hf⟩).2.prepValue v := by
  induction fields generalizing t with
  | nil =>
    rw [to_tuple_fields] at h
    injection h with h
    subst h
    exact ⟨rfl, by intro i hf; simp at hf⟩
  | cons nf rest ih =>
    cases hg : getattr? a nf.1 with
    | none => rw [to_tuple_fields, hg] at h; cases h
    | some v =>
      cases hr : to_tuple_fields a rest with
      | none => rw [to_tuple_fields, hg, hr] at h; cases h
      | some tr =>
        rw [to_tuple_fields, hg, hr] at h
        change some (nf.2.prepValue v :: tr) = some t at h
        injection h with h
        subst h
        obtain ⟨hlen, hspec⟩ := ih tr hr
        refine ⟨by simp [hlen], ?_⟩
        intro i hf ht
        cases i with
        | zero => exact ⟨v, by simpa using hg, rfl⟩
        | succ i =>
          simpa using hspec i (by simpa using hf) (by simpa using ht)

theorem to_tuple_fields_of_fun (a : PyAttrs) (fields : List (String × FieldSpec))
    (g : String → Value) (h : ∀ nf ∈ fields, getattr? a nf.1 = some (g nf.1)) :
    to_tuple_fields a fields =
      some (fields.map (fun nf => nf.2.prepValue (g nf.1))) := by
  induction fields with
  | nil => rfl
  | cons nf rest ih =>
    rw [to_tuple_fields, h nf (List.mem_cons_self _ _),
      ih (fun x hx => h x (List.mem_cons_of_mem _ hx))]
    rfl

/-! Lemmas about `CompositeType_init`. -/

theorem init_ok_kwargs_nil (meta : Meta) (args : List Value) :
    CompositeType_init meta args [] = Except.ok (init_attrs meta args []) := by
  simp [CompositeType_init]

theorem init_ok_args_nil (meta : Meta) (kwargs : List (String × Value)) :
    CompositeType_init meta [] kwargs = Except.ok (init_attrs meta [] kwargs) := by
  simp [CompositeType_init]

theorem init_attrs_kwargs_lookup (meta : Meta) (entries : List (String × Value))
    (hnd : (entries.map Prod.fst).Nodup) (n : String)
    (hn : n ∈ meta.fields.map Prod.fst) :
    getattr? (init_attrs meta [] entries) n = some (dict_get entries n) := by
  unfold init_attrs
  rw [show ((meta.fields.zip ([] : List Value)).map (fun p => (p.1.1, p.2))) = []
      by simp, applyAssigns_nil]
  by_cases hk : (getattr? entries n).isSome
  · obtain ⟨v, hv⟩ := Option.isSome_iff_exists.mp hk
    rw [getattr_applyAssigns_mem entries _ n v hnd (getattr_mem entries n v hv)]
    rw [dict_get_eq_getattr, hv]
    rfl
  · have hk2 : n ∉ entries.map Prod.fst := by
      rw [← getattr_isSome_iff_key_mem]
      exact hk
    rw [getattr_applyAssigns_not_mem entries _ n hk2,
      blank_lookup meta.fields [] n hn, dict_get_eq_getattr]
    cases hgn : getattr? entries n with
    | none => rfl
    | some v => rw [hgn] at hk; simp at hk

/-! Lemmas about the registration hook and the metaclass. -/

theorem signal_disconnect_not_mem (registry : List String) (uid : String) :
    uid ∉ signal_disconnect registry uid := by
  intro h
  rcases List.mem_filter.mp h with ⟨-, hp⟩
  simp at hp

theorem database_connected_deregisters (meta : Meta) (isPg : Bool)
    (reg : RegOutcome) (registry : List String)
    (h : isPg = false ∨ reg ≠ RegOutcome.otherError) :
    meta.db_type ∉ (database_connected meta isPg reg registry).registry := by
  unfold database_connected
  rcases h with rfl | h
  · simpa using signal_disconnect_not_mem registry meta.db_type
  · cases isPg
    · simpa using signal_disconnect_not_mem registry meta.db_type
    · cases reg with
      | ok => simpa using signal_disconnect_not_mem registry meta.db_type
      | progError => simpa using signal_disconnect_not_mem registry meta.db_type
      | otherError => exact absurd rfl h

theorem connection_event_inv (meta : Meta) (e : Bool × RegOutcome)
    (he : e.1 = false ∨ e.2 ≠ RegOutcome.otherError) (st : ProcState)
    (h1 : st.attempts ≤ 1) (h2 : meta.db_type ∈ st.registry → st.attempts = 0) :
    (connection_event meta e st).attempts ≤ 1 ∧
      (meta.db_type ∈ (connection_event meta e st).registry →
        (connection_event meta e st).attempts = 0) := by
  unfold connection_event
  by_cases hm : meta.db_type ∈ st.registry
  · rw [if_pos hm]
    have hz : st.attempts = 0 := h2 hm
    constructor
    · simp only [hz, Nat.zero_add]
      cases e.1 <;> simp
    · intro hmem
      exact absurd hmem (database_connected_deregisters meta e.1 e.2 st.registry he)
  · rw [if_neg hm]
    exact ⟨h1, h2⟩

theorem run_events_inv (meta : Meta) (events : List (Bool × RegOutcome))
    (hgood : ∀ e ∈ events, e.1 = false ∨ e.2 ≠ RegOutcome.otherError)
    (st : ProcState) (h1 : st.attempts ≤ 1)
    (h2 : meta.db_type ∈ st.registry → st.attempts = 0) :
    (run_events meta events st).attempts ≤ 1 := by
  induction events generalizing st with
  | nil => exact h1
  | cons e rest ih =>
    have hstep := connection_event_inv meta e
      (hgood e (List.mem_cons_self _ _)) st h1 h2
    exact ih (fun x hx => hgood x (List.mem_cons_of_mem _ hx)) _ hstep.1 hstep.2

theorem collectFields_related (attrs : List (String × AttrValue))
    (h : ∃ p ∈ attrs, ∃ f, p.2 = AttrValue.relatedField f) :
    collectFields attrs =
      Except.error "Composite types cannot contain related fields" := by
  induction attrs with
  | nil => simp at h
  | cons p rest ih =>
    rcases h with ⟨q, hq, f, hqf⟩
    rcases List.mem_cons.mp hq with rfl | hq2
    · rw [collectFields, hqf]
    · cases hp : p.2 with
      | relatedField g => rw [collectFields, hp]
      | field g => rw [collectFields, hp, ih ⟨q, hq2, f, hqf⟩]; rfl
      | metaBlock o => rw [collectFields, hp]; exact ih ⟨q, hq2, f, hqf⟩
      | other => rw [collectFields, hp]; exact ih ⟨q, hq2, f, hqf⟩

/-! Claim theorems. -/

/-- C3: for the declared type with fields `street text, city text` and
database type name `address`, the forward migration emits exactly
`CREATE TYPE address AS (street text, city text)`; constructing an instance
from the positional values `("Main St", "Springfield")` yields an instance
with `street = "Main St"` and `city = "Springfield"`; and that instance
storage tuple is exactly `("Main St", "Springfield")`. -/
theorem C3_address_example :
    create_type_sql address_meta = "CREATE TYPE address AS (street text, city text)" ∧
    ∃ a, CompositeType_init address_meta
        [Value.str "Main St", Value.str "Springfield"] [] = Except.ok a ∧
      getattr? a "street" = some (Value.str "Main St") ∧
      getattr? a "city" = some (Value.str "Springfield") ∧
      CompositeType_to_tuple address_meta a =
        some [Value.str "Main St", Value.str "Springfield"] :=
  ⟨rfl, _, rfl, rfl, rfl, rfl⟩

/-- C7: for every declared type, when the connection is the Postgres backend
and driver registration raises `ProgrammingError` (the type does not exist
database-side yet), the hook logs the warning and returns normally: no
exception reaches the caller. -/
theorem C7_prog_error_swallowed (meta : Meta) (registry : List String) :
    database_connected meta true RegOutcome.progError registry =
      { raised := false, warnings := [registration_warning],
        registry := signal_disconnect registry meta.db_type } :=
  rfl

/-- C9: for every declared type, the forward migration performs, in order,
one CREATE TYPE statement built from the ordered field list with each field
database type name, then the driver registration, then the type-created
signal send; and the backward migration emits exactly one DROP TYPE
statement and nothing else. -/
theorem C9_migration_traces (meta : Meta) :
    database_forwards meta =
      [Effect.execSQL ("CREATE TYPE" ++ " " ++ meta.db_type ++ " " ++
        ("AS (" ++ String.intercalate ", "
          (meta.fields.map (fun nf => nf.1 ++ " " ++ nf.2.dbType)) ++ ")")),
       Effect.registerComposite meta.db_type,
       Effect.sendSignal meta.db_type] ∧
    database_backwards meta = [Effect.execSQL ("DROP TYPE " ++ meta.db_type)] ∧
    (database_backwards meta).length = 1 :=
  ⟨rfl, rfl, rfl⟩

/-- C4: every class declaration of a composite type (any class other than the
base `CompositeType`) whose configuration block omits the mandatory database
type name fails at class-declaration time: `CompositeTypeMeta.__new__` raises
an exception. -/
theorem C4_missing_db_type_fails (name : String)
    (attrs : List (String × AttrValue)) (hname : name ≠ "CompositeType")
    (hmeta : findMetaDbType (popFields attrs) = Option.none) :
    ∃ e, CompositeTypeMeta_new name attrs = Except.error e := by
  unfold CompositeTypeMeta_new
  rw [if_neg hname]
  cases hc : collectFields attrs with
  | error e => exact ⟨e, rfl⟩
  | ok fs => exact ⟨"Meta.db_type is required.", by rw [hmeta]⟩

/-- C4 witness: a declaration with one text field and no `Meta` block. -/
theorem C4_missing_db_type_fails_witness :
    ("Address" ≠ "CompositeType" ∧
      findMetaDbType (popFields [("street", AttrValue.field text_field)]) =
        Option.none) ∧
    ∃ e, CompositeTypeMeta_new "Address" [("street", AttrValue.field text_field)] =
      Except.error e :=
  ⟨⟨by decide, rfl⟩,
    C4_missing_db_type_fails "Address" [("street", AttrValue.field text_field)]
      (by decide) rfl⟩

/-- C5: every class declaration of a composite type (any class other than the
base `CompositeType`) in which some declared attribute is a relational field
fails at class-declaration time with the related-field `TypeError`. -/
theorem C5_related_field_fails (name : String)
    (attrs : List (String × AttrValue)) (hname : name ≠ "CompositeType")
    (hrel : ∃ p ∈ attrs, ∃ f, p.2 = AttrValue.relatedField f) :
    CompositeTypeMeta_new name attrs =
      Except.error "Composite types cannot contain related fields" := by
  unfold CompositeTypeMeta_new
  rw [if_neg hname, collectFields_related attrs hrel]

/-- C5 witness: a declaration with a foreign-key attribute and a complete
`Meta` block still fails. -/
theorem C5_related_field_fails_witness :
    ("Card" ≠ "CompositeType" ∧
      (("owner", AttrValue.relatedField text_field) ∈
          [("owner", AttrValue.relatedField text_field),
           ("Meta", AttrValue.metaBlock (some "card"))] ∧
        ("owner", AttrValue.relatedField text_field).2 =
          AttrValue.relatedField text_field)) ∧
    CompositeTypeMeta_new "Card"
        [("owner", AttrValue.relatedField text_field),
         ("Meta", AttrValue.metaBlock (some "card"))] =
      Except.error "Composite types cannot contain related fields" :=
  ⟨⟨by decide, List.mem_cons_self _ _, rfl⟩,
    C5_related_field_fails "Card" _ (by decide)
      ⟨("owner", AttrValue.relatedField text_field),
        List.mem_cons_self _ _, text_field, rfl⟩⟩

/-- C6: for every composite type, constructing an instance with both at
least one positional and at least one named argument raises `RuntimeError`,
while construction from only positional values, only named values, or no
values succeeds and yields an instance holding one value per declared
field. -/
theorem C6_constructor_args_kwargs (meta : Meta) (args : List Value)
    (kwargs : List (String × Value)) :
    (args ≠ [] → kwargs ≠ [] →
      CompositeType_init meta args kwargs =
        Except.error "Specify either args or kwargs but not both.") ∧
    ((args = [] ∨ kwargs = []) →
      ∃ a, CompositeType_init meta args kwargs = Except.ok a ∧
        ∀ nf ∈ meta.fields, ∃ v, getattr? a nf.1 = some v) := by
  constructor
  · intro ha hk
    obtain ⟨x, xs, rfl⟩ := List.exists_cons_of_ne_nil ha
    obtain ⟨y, ys, rfl⟩ := List.exists_cons_of_ne_nil hk
    simp [CompositeType_init]
  · intro h
    refine ⟨init_attrs meta args kwargs, ?_, ?_⟩
    · rcases h with rfl | rfl
      · exact init_ok_args_nil meta kwargs
      · exact init_ok_kwargs_nil meta args
    · intro nf hmem
      have h1 : (getattr? (applyAssigns []
          (meta.fields.map (fun nf => (nf.1, Value.none)))) nf.1).isSome := by
        rw [blank_lookup meta.fields [] nf.1 (List.mem_map_of_mem _ hmem)]
        rfl
      exact Option.isSome_iff_exists.mp
        (getattr_applyAssigns_isSome _ _ _
          (getattr_applyAssigns_isSome _ _ _ h1))

/-- C6 witness: on the address type, mixing one positional and one named
value errors, while one positional value alone succeeds with both declared
fields populated. -/
theorem C6_constructor_args_kwargs_witness :
    CompositeType_init address_meta [Value.str "Main St"]
        [("city", Value.str "Springfield")] =
      Except.error "Specify either args or kwargs but not both." ∧
    ∃ a, CompositeType_init address_meta [Value.str "Main St"] [] = Except.ok a ∧
      ∀ nf ∈ address_meta.fields, ∃ v, getattr? a nf.1 = some v :=
  ⟨(C6_constructor_args_kwargs address_meta [Value.str "Main St"]
      [("city", Value.str "Springfield")]).1 (by simp) (by simp),
    (C6_constructor_args_kwargs address_meta [Value.str "Main St"] []).2
      (Or.inr rfl)⟩

/-- C10: for every composite type with distinct declared field names and any
list of positional values, construction succeeds; the first `k` declared
fields (declaration order) receive the `k` given values, every remaining
declared field is `None`, and positional values beyond the declared fields
are silently ignored (the instance has no field to show them on). -/
theorem C10_partial_positional (meta : Meta) (args : List Value)
    (hnd : (meta.fields.map Prod.fst).Nodup) :
    ∃ a, CompositeType_init meta args [] = Except.ok a ∧
      ∀ i (hf : i < meta.fields.length),
        getattr? a (meta.fields.get ⟨i, hf⟩).1 =
          if h2 : i < args.length then some (args.get ⟨i, h2⟩)
          else some Value.none := by
  refine ⟨init_attrs meta args [], init_ok_kwargs_nil meta args, ?_⟩
  intro i hf
  unfold init_attrs
  rw [applyAssigns_nil, pos_lookup meta.fields args hnd i hf]
  by_cases h2 : i < args.length
  · rw [dif_pos h2, dif_pos h2]
  · rw [dif_neg h2, dif_neg h2]
    apply blank_lookup
    have : (meta.fields.get ⟨i, hf⟩).1 =
        (meta.fields.map Prod.fst).get ⟨i, by simpa using hf⟩ := by
      simp [List.get_eq_getElem, List.getElem_map]
    rw [this]
    exact List.get_mem _ _ _

/-- C10 witness: the address type with a single positional value sets
`street` and leaves `city` as `None`; with three values the extra one is
dropped. -/
theorem C10_partial_positional_witness :
    (address_meta.fields.map Prod.fst).Nodup ∧
    (∃ a, CompositeType_init address_meta [Value.str "Main St"] [] = Except.ok a ∧
      ∀ i (hf : i < address_meta.fields.length),
        getattr? a (address_meta.fields.get ⟨i, hf⟩).1 =
          if h2 : i < [Value.str "Main St"].length
          then some ([Value.str "Main St"].get ⟨i, h2⟩)
          else some Value.none) :=
  ⟨by decide, C10_partial_positional address_meta [Value.str "Main St"] (by decide)⟩

/-- C2: for every composite type and every input mapping (a Python dict,
hence with distinct keys), to-internal of the mapping is an instance whose
storage tuple is exactly the tuple obtained by applying each declared field
prepare-value function directly to the mapping value for that field name
(`None` when absent), in declared field order — which is also exactly the
dict branch of `BaseField.get_prep_value`. -/
theorem C2_to_internal_storage (meta : Meta) (entries : List (String × Value))
    (hnd : (entries.map Prod.fst).Nodup) :
    ∃ a, BaseField_to_python meta (Value.dict entries) = Except.ok (Value.inst a) ∧
      CompositeType_to_tuple meta a =
        some (meta.fields.map (fun nf => nf.2.prepValue (dict_get entries nf.1))) ∧
      BaseField_get_prep_value meta (Value.dict entries) =
        some (Value.tuple
          (meta.fields.map (fun nf => nf.2.prepValue (dict_get entries nf.1)))) := by
  refine ⟨init_attrs meta [] entries, ?_, ?_, rfl⟩
  · rw [BaseField_to_python, init_ok_args_nil meta entries]
    rfl
  · unfold CompositeType_to_tuple
    apply to_tuple_fields_of_fun
    intro nf hmem
    exact init_attrs_kwargs_lookup meta entries hnd nf.1
      (List.mem_map_of_mem _ hmem)

/-- C2 witness: a mapping giving only `street`; `city` is prepared from
`None`. -/
theorem C2_to_internal_storage_witness :
    ((["street"] : List String).Nodup ∧
      ([("street", Value.str "Main St")].map Prod.fst) = ["street"]) ∧
    ∃ a, BaseField_to_python address_meta
        (Value.dict [("street", Value.str "Main St")]) = Except.ok (Value.inst a) ∧
      CompositeType_to_tuple address_meta a =
        some (address_meta.fields.map
          (fun nf => nf.2.prepValue (dict_get [("street", Value.str "Main St")] nf.1))) ∧
      BaseField_get_prep_value address_meta
          (Value.dict [("street", Value.str "Main St")]) =
        some (Value.tuple (address_meta.fields.map
          (fun nf => nf.2.prepValue (dict_get [("street", Value.str "Main St")] nf.1)))) :=
  ⟨⟨by decide, rfl⟩,
    C2_to_internal_storage address_meta [("street", Value.str "Main St")] (by decide)⟩

/-- C8: for every declared type, one hook invocation on any of the outcomes
the claim enumerates (success, registration failure by `ProgrammingError`,
or a non-Postgres connection) removes the hook uid from the signal registry;
consequently over any process run whose events all fall in that enumeration,
driver registration is attempted at most once for the type. -/
theorem C8_hook_once (meta : Meta) (isPg : Bool) (reg : RegOutcome)
    (registry : List String) (events : List (Bool × RegOutcome))
    (h1 : isPg = false ∨ reg ≠ RegOutcome.otherError)
    (h2 : ∀ e ∈ events, e.1 = false ∨ e.2 ≠ RegOutcome.otherError) :
    meta.db_type ∉ (database_connected meta isPg reg registry).registry ∧
    (run_events meta events (initial_state meta)).attempts ≤ 1 := by
  refine ⟨database_connected_deregisters meta isPg reg registry h1, ?_⟩
  exact run_events_inv meta events h2 (initial_state meta)
    (by simp [initial_state]) (fun _ => rfl)

/-- C8 witness: a Postgres connection whose registration fails with
`ProgrammingError`, then two more connections; registration is attempted
exactly once. -/
theorem C8_hook_once_witness :
    ((true = false ∨ RegOutcome.ok ≠ RegOutcome.otherError) ∧
      (∀ e ∈ [(true, RegOutcome.progError), (true, RegOutcome.ok),
              (false, RegOutcome.progError)],
        e.1 = false ∨ e.2 ≠ RegOutcome.otherError)) ∧
    ("address" ∉ (database_connected address_meta true RegOutcome.ok
        ["address", "other"]).registry ∧
      (run_events address_meta
        [(true, RegOutcome.progError), (true, RegOutcome.ok),
         (false, RegOutcome.progError)]
        (initial_state address_meta)).attempts ≤ 1) :=
  ⟨⟨Or.inr (by decide), by decide⟩,
    C8_hook_once address_meta true RegOutcome.ok ["address", "other"]
      [(true, RegOutcome.progError), (true, RegOutcome.ok),
       (false, RegOutcome.progError)]
      (Or.inr (by decide)) (by decide)⟩

/-- C1 counterexample: on a declared type with an integer column, the
instance with `x = "3"` (a string, as `CompositeType("3")` produces) has
storage tuple `(3,)` because `IntegerField.get_prep_value` coerces with
`int(value)`; from-storage rebuilds an instance with `x = 3`, so the round
trip does not give back the original field value. -/
theorem C1_counterexample :
    roundtrip point_meta [("x", Value.str "3")] =
      some [("x", Value.int 3), ("x", Value.none)] ∧
    getattr? [("x", Value.int 3), ("x", Value.none)] "x" = some (Value.int 3) ∧
    getattr? [("x", Value.str "3")] "x" = some (Value.str "3") ∧
    Value.int 3 ≠ Value.str "3" :=
  ⟨rfl, rfl, rfl, fun h => Value.noConfusion h⟩

/-- C1 (amended): for every declared composite type with distinct field
names and every instance whose storage tuple exists, from-storage on that
tuple yields an instance in which every declared field holds the PREPARED
value of the original field (the field `get_prep_value` applied to it); in
particular the round trip preserves every field exactly whenever each field
prepare-value function leaves the instance values unchanged. -/
theorem C1_roundtrip_prepared (meta : Meta) (a : PyAttrs) (t : List Value)
    (hnd : (meta.fields.map Prod.fst).Nodup)
    (htup : CompositeType_to_tuple meta a = some t) :
    ∃ a2, BaseField_from_db_value meta (Value.tuple t) =
        Except.ok (Value.inst a2) ∧
      (∀ nf ∈ meta.fields, ∃ v, getattr? a nf.1 = some v ∧
        getattr? a2 nf.1 = some (nf.2.prepValue v)) ∧
      ((∀ nf ∈ meta.fields, ∀ v, getattr? a nf.1 = some v →
          nf.2.prepValue v = v) →
        ∀ nf ∈ meta.fields, getattr? a2 nf.1 = getattr? a nf.1) := by
  obtain ⟨hlen, hspec⟩ := to_tuple_fields_spec a meta.fields t htup
  have hmain : ∀ nf ∈ meta.fields, ∃ v, getattr? a nf.1 = some v ∧
      getattr? (init_attrs meta t []) nf.1 = some (nf.2.prepValue v) := by
    intro nf hmem
    obtain ⟨⟨i, hf⟩, hget⟩ := List.mem_iff_get.mp hmem
    obtain ⟨v, hv, hti⟩ := hspec i hf (by omega)
    rw [hget] at hv
    refine ⟨v, hv, ?_⟩
    rw [← hget]
    unfold init_attrs
    rw [applyAssigns_nil, pos_lookup meta.fields t hnd i hf,
      dif_pos (show i < t.length by omega)]
    exact congrArg some hti
  refine ⟨init_attrs meta t [], ?_, hmain, ?_⟩
  · have hm : BaseField_from_db_value meta (Value.tuple t) =
        (CompositeType_init meta t []).map Value.inst := rfl
    rw [hm, init_ok_kwargs_nil meta t]
    rfl
  · intro hfix nf hmem
    obtain ⟨v, hv, hv2⟩ := hmain nf hmem
    rw [hv2, hfix nf hmem v hv, hv]

/-- C1 witness: on the address type the storage tuple of an instance built
from two strings round-trips through from-storage, each field holding its
prepared (here unchanged) value. -/
theorem C1_roundtrip_prepared_witness :
    ((address_meta.fields.map Prod.fst).Nodup ∧
      CompositeType_to_tuple address_meta
          [("city", Value.str "Springfield"), ("street", Value.str "Main St")] =
        some [Value.str "Main St", Value.str "Springfield"]) ∧
    ∃ a2, BaseField_from_db_value address_meta
        (Value.tuple [Value.str "Main St", Value.str "Springfield"]) =
        Except.ok (Value.inst a2) ∧
      (∀ nf ∈ address_meta.fields, ∃ v,
        getattr? [("city", Value.str "Springfield"),
          ("street", Value.str "Main St")] nf.1 = some v ∧
        getattr? a2 nf.1 = some (nf.2.prepValue v)) ∧
      ((∀ nf ∈ address_meta.fields, ∀ v,
          getattr? [("city", Value.str "Springfield"),
            ("street", Value.str "Main St")] nf.1 = some v →
          nf.2.prepValue v = v) →
        ∀ nf ∈ address_meta.fields,
          getattr? a2 nf.1 =
            getattr? [("city", Value.str "Springfield"),
              ("street", Value.str "Main St")] nf.1) :=
  ⟨⟨by decide, rfl⟩,
    C1_roundtrip_prepared address_meta
      [("city", Value.str "Springfield"), ("street", Value.str "Main St")]
      [Value.str "Main St", Value.str "Springfield"] (by decide) rfl⟩

end PgCompositeTypes
